import Mathlib

/-!
Verification development for the `docker-registry-proxy` Cloudflare Worker
(`src/index.js`).  The JavaScript source is shallowly embedded: pure string
manipulation becomes Lean functions on `String`/`List Char`, the `Headers`
object becomes an association list with JS `Headers.set`/`get`/`delete`
semantics, configured regular expressions become either pure matcher
oracles (`String → Bool`) or — where the shared `lastIndex` state of the
cached global regexes matters — search denotations threaded through an
explicit `lastIndex` store, and the retry loop of `fetchWithTimeout`
becomes a function over a sequence of attempt outcomes.  All definitions
are executable so that concrete scenarios evaluate by `decide`/`rfl`.
-/

set_option autoImplicit false

/-! ## Basic string utilities (JS `String.prototype.includes` / `startsWith`) -/

/-- JS substring test on character lists: `containsSubL needle haystack`
is `true` iff `needle` occurs contiguously inside `haystack`
(the semantics of `haystack.includes(needle)`). -/
def containsSubL (n : List Char) : List Char → Bool
  | [] => n.isEmpty
  | c :: rest => n.isPrefixOf (c :: rest) || containsSubL n rest

/-- `containsStr needle haystack` models JS `haystack.includes(needle)`. -/
def containsStr (n h : String) : Bool :=
  containsSubL n.data h.data

/-- Models JS `s.startsWith(p)`. -/
def sStarts (p s : String) : Bool :=
  p.data.isPrefixOf s.data

/-- Models JS `s.endsWith(p)`. -/
def sEnds (p s : String) : Bool :=
  p.data.isSuffixOf s.data

/-! ## The hostname-substitution regex

`src/index.js` builds, for a hostname `h`, the global regex
`(?<!\.)\bh\b` (`getCachedRegex`, lines 64-70, used at lines 133-140,
287-298 and 354-364) and replaces every match with a replacement hostname.
The hostname is interpolated unescaped, so a `.` in it is the regex
wildcard (any character except a line terminator).  We model the JS regex
engine for exactly this pattern family: word characters are `[A-Za-z0-9_]`,
`\b` is a word/non-word transition (string edges included), the lookbehind
`(?<!\.)` inspects the input character before the match, and global
`String.replace` scans left to right, resuming after each match. -/

/-- JS `\w` — ASCII letters, digits and underscore. -/
def isWordChar (c : Char) : Bool :=
  c.isAlphanum || c = '_'

/-- One pattern character against one text character: `.` is the JS
wildcard (anything but a newline), every other character is literal. -/
def patCharMatches (p c : Char) : Bool :=
  if p = '.' then c ≠ '\n' else p = c

/-- The pattern matches a prefix of the text. -/
def patMatchesAt : List Char → List Char → Bool
  | [], _ => true
  | _ :: _, [] => false
  | p :: ps, c :: cs => patCharMatches p c && patMatchesAt ps cs

/-- JS `\b` between two adjacent positions (`none` = string edge). -/
def isBoundary : Option Char → Option Char → Bool
  | none, none => false
  | none, some c => isWordChar c
  | some c, none => isWordChar c
  | some a, some b => isWordChar a != isWordChar b

/-- Whole match test for `(?<!\.)\bpat\b` at the current position:
`prev` is the input character immediately before the position. -/
def matchHere (pat : List Char) (prev : Option Char) (s : List Char) : Bool :=
  !pat.isEmpty &&
  patMatchesAt pat s &&
  !(prev == some '.') &&
  isBoundary prev s.head? &&
  isBoundary ((s.take pat.length).getLast?) ((s.drop pat.length).head?)

/-- Global-replace scan.  The fuel argument bounds the number of scan steps;
each step consumes at least one character, so `s.length` fuel suffices.
On a match the scan emits the replacement and resumes after the matched
input segment (JS `lastIndex` semantics); otherwise it copies one
character. -/
def scanRewriteAux (pat repl : List Char) : Nat → Option Char → List Char → List Char
  | 0, _, s => s
  | _ + 1, _, [] => []
  | n + 1, prev, c :: rest =>
    if matchHere pat prev (c :: rest) then
      repl ++ scanRewriteAux pat repl n (((c :: rest).take pat.length).getLast?)
        ((c :: rest).drop pat.length)
    else
      c :: scanRewriteAux pat repl n (some c) rest

/-- `hostRewrite h r s` models `s.replace(getCachedRegex("(?<!\\.)\\b" + h + "\\b"), r)`
from `src/index.js` — the whole-word hostname substitution used for request
headers (origin → backend, lines 288-298), response headers
(backend → origin, lines 354-364) and textual response bodies
(lines 132-140, `PATHNAME_REGEX` absent). -/
def hostRewrite (h r s : String) : String :=
  ⟨scanRewriteAux h.data r.data s.data.length none s.data⟩

/-- Position-by-position match search, same fuel discipline as the scan
(but advancing a single character each step, so it visits every position). -/
def hasMatchAux (pat : List Char) : Nat → Option Char → List Char → Bool
  | 0, _, _ => false
  | _ + 1, _, [] => false
  | n + 1, prev, c :: rest =>
    matchHere pat prev (c :: rest) || hasMatchAux pat n (some c) rest

/-- `hasHostMatch h s` — does `(?<!\.)\bh\b` match anywhere in `s`? -/
def hasHostMatch (h s : String) : Bool :=
  hasMatchAux h.data s.data.length none s.data

/-! ## Headers model

JS `Headers` (as used by the worker) is modelled as an association list of
lowercase header names to values.  `Headers.set` replaces an existing entry
in place or appends, `get` returns the first (unique) entry, `delete`
removes the entry.  The `Headers` constructor lowercases names, which we
mirror by using lowercase name strings throughout. -/

/-- Header list: association list of (lowercase name, value). -/
abbrev HList := List (String × String)

/-- JS `headers.get(name)` (returns `null` — here `none` — when absent). -/
def hGet (n : String) : HList → Option String
  | [] => none
  | (k, v) :: rest => if k = n then some v else hGet n rest

/-- JS `headers.set(name, value)`: replace in place, or append. -/
def hSet (n v : String) : HList → HList
  | [] => [(n, v)]
  | (k, w) :: rest => if k = n then (n, v) :: rest else (k, w) :: hSet n v rest

/-- JS `headers.delete(name)`. -/
def hDel (n : String) (hs : HList) : HList :=
  hs.filter (fun p => p.1 ≠ n)

/-! ## `createNewRequest` (src/index.js lines 278-342)

The outbound request's headers are produced by a pipeline:
`sanitizeHeaders`, the S3 digest header for blob paths, the whole-word
origin→backend hostname rewrite of every header value, the
`Docker-Distribution-API-Version` marker, the `Accept` lists for `/v2`
manifest/blob paths, and re-asserting the inbound `Range` header. -/

/-- Headers stripped by `sanitizeHeaders` (line 150). -/
def sensitiveHeaderNames : List String :=
  ["cf-connecting-ip", "x-real-ip", "x-forwarded-for"]

/-- Docker headers re-asserted by `sanitizeHeaders` (lines 158-169). -/
def dockerHeaderNames : List String :=
  ["docker-distribution-api-version", "docker-content-digest",
   "content-length", "content-type", "x-content-type-options",
   "cache-control", "www-authenticate", "authorization", "range",
   "accept-ranges"]

/-- `sanitizeHeaders` (lines 149-183): copy, drop sensitive forwarding
headers, re-assert the Docker headers from the original, set the two
security headers. -/
def sanitizeHeaders (headers : HList) : HList :=
  let nh := sensitiveHeaderNames.foldl (fun acc n => hDel n acc) headers
  let nh := dockerHeaderNames.foldl
    (fun acc n => match hGet n headers with
      | some v => hSet n v acc
      | none => acc) nh
  let nh := hSet "x-content-type-options" "nosniff" nh
  hSet "referrer-policy" "strict-origin-when-cross-origin" nh

/-- The manifest `Accept` list (lines 307-316, already joined with `, `). -/
def manifestAcceptTypes : String :=
  "application/vnd.docker.distribution.manifest.v2+json, application/vnd.docker.distribution.manifest.list.v2+json, application/vnd.oci.image.manifest.v1+json, application/vnd.oci.image.index.v1+json, application/vnd.docker.distribution.manifest.v1+prettyjws, application/json, */*"

/-- The blob `Accept` list (lines 319-327, already joined with `, `). -/
def blobAcceptTypes : String :=
  "application/vnd.docker.image.rootfs.diff.tar.gzip, application/vnd.docker.container.image.v1+json, application/vnd.oci.image.layer.v1.tar+gzip, application/vnd.oci.image.config.v1+json, application/octet-stream, */*"

/-- Per-value origin→backend hostname rewrite of the header loop
(lines 288-298): a value is rewritten only when it literally contains the
origin hostname. -/
def rwVal (origin proxy v : String) : String :=
  if containsStr origin v then hostRewrite origin proxy v else v

/-- Step: the S3 digest header for blob paths (lines 282-285). -/
def step_amz (pathname : String) (h : HList) : HList :=
  if containsStr "/blobs/" pathname then
    hSet "x-amz-content-sha256" "UNSIGNED-PAYLOAD" h
  else h

/-- Step: hostname rewrite over every header value (lines 288-298). -/
def step_rw (origin proxy : String) (h : HList) : HList :=
  h.map (fun p => (p.1, rwVal origin proxy p.2))

/-- Step: the `Accept` lists for `/v2` manifest/blob requests
(lines 304-329). -/
def step_accept (pathname : String) (h : HList) : HList :=
  if sStarts "/v2" pathname then
    if containsStr "/manifests/" pathname then hSet "accept" manifestAcceptTypes h
    else if containsStr "/blobs/" pathname then hSet "accept" blobAcceptTypes h
    else h
  else h

/-- Step: re-assert the inbound `Range` header (lines 332-335). -/
def step_range (reqHeaders : HList) (h : HList) : HList :=
  match hGet "range" reqHeaders with
  | some v => hSet "range" v h
  | none => h

/-- The headers of the outbound request built by `createNewRequest`
(lines 278-342).  The URL/method/body parts are not needed by the claims. -/
def createNewRequestHeaders (reqHeaders : HList)
    (pathname proxyHostname originHostname : String) : HList :=
  step_range reqHeaders
    (step_accept pathname
      (hSet "docker-distribution-api-version" "registry/2.0"
        (step_rw originHostname proxyHostname
          (step_amz pathname (sanitizeHeaders reqHeaders)))))

/-! ## Backend routing (src/index.js lines 459-466) -/

/-- `isManifestOrBlobRequest` (lines 111-113). -/
def isManifestOrBlobRequest (pathname : String) : Bool :=
  containsStr "/manifests/" pathname || containsStr "/blobs/" pathname

/-- The `PROXY_HOSTNAME` reassignment of the fetch handler (lines 459-466):
`envHostname` is the already-defaulted `PROXY_HOSTNAME`
(default `registry-1.docker.io`). -/
def routeBackend (envHostname pathname : String) : String :=
  if containsStr "/token" pathname then "auth.docker.io"
  else if containsStr "/search" pathname then "index.docker.io"
  else if sStarts "/v2" pathname && isManifestOrBlobRequest pathname then
    "registry-1.docker.io"
  else envHostname

/-- Modelled from the spec: the routing table of §4.3 / claim C5, written
from the spec's words for comparison with `routeBackend` — path ending in
`/token` or containing `/auth` goes to the auth backend, a `/v1/search` or
`/v2/_catalog` prefix or a `/search` segment goes to the index backend,
everything else to the configured default. -/
def specRouteBackend (defaultHostname pathname : String) : String :=
  if sEnds "/token" pathname || containsStr "/auth" pathname then "auth.docker.io"
  else if sStarts "/v1/search" pathname || sStarts "/v2/_catalog" pathname ||
      containsStr "/search" pathname then "index.docker.io"
  else defaultHostname

/-! ## Access control (src/index.js lines 469-507)

The source tests each configured pattern with
`getCachedRegex(PATTERN).test(value)`.  `getCachedRegex` (line 64)
compiles with default flags `'g'` and caches by `pattern + "|" + flags`,
so the `RegExp` objects are global and shared: `test` on a global regex is
stateful — it searches from the object's `lastIndex`, advances it on a
match and resets it to 0 on a miss — and two checks configured with the
same pattern string operate on the same object.

Two embeddings follow.  The first (`accessDeniedV`) idealises each
pattern as a pure matcher oracle (`String → Bool`), i.e. a `test` whose
outcome depends only on its argument; it is adequate for the claims that
do not depend on `lastIndex` sharing (the deny short-circuit of the
handler, and the coercion of missing values, which is about the argument
`test` receives).  The second (`accessDeniedS` below) models the shared
`lastIndex` state explicitly and is the authority on whitelist/blacklist
interaction.  A JS falsy pattern (absent or `""`) never contributes a
check, which `Option` captures.  Note the JS coercions reproduced by the
accessors: `request.headers.get("user-agent")?.toLowerCase() || ''`
yields `""` for a missing user-agent, while
`regex.test(request.headers.get("cf-connecting-ip"))` coerces a missing
header (`null`) to the four-character string `"null"`, and likewise for
`cf-ipcountry`. -/

/-- The configuration bag after the destructuring defaults of lines 439-453. -/
structure Env where
  proxyHostname : String := "registry-1.docker.io"
  pathnameRegex : Option (String → Bool) := none
  uaWhitelist : Option (String → Bool) := none
  uaBlacklist : Option (String → Bool) := none
  ipWhitelist : Option (String → Bool) := none
  ipBlacklist : Option (String → Bool) := none
  regionWhitelist : Option (String → Bool) := none
  regionBlacklist : Option (String → Bool) := none
  url302 : Option String := none
  requestTimeout : Nat := 60000
  maxRetries : Nat := 3

/-- An inbound request: origin hostname, path and headers
(`url.hostname`, `url.pathname`, `request.headers`). -/
structure RequestModel where
  hostname : String
  pathname : String
  headers : HList

/-- JS `toLowerCase()` restricted to ASCII (header values and the
configured patterns are ASCII). -/
def asciiLower (s : String) : String :=
  ⟨s.data.map Char.toLower⟩

/-- `request.headers.get("user-agent")?.toLowerCase() || ''` (lines 474, 478). -/
def uaValue (req : RequestModel) : String :=
  ((hGet "user-agent" req.headers).map asciiLower).getD ""

/-- `request.headers.get("cf-connecting-ip")` as seen by `RegExp.test`
(lines 482, 486): JS coerces `null` to the string `"null"`. -/
def ipValue (req : RequestModel) : String :=
  (hGet "cf-connecting-ip" req.headers).getD "null"

/-- `request.headers.get("cf-ipcountry")` as seen by `RegExp.test`
(lines 490, 494): JS coerces `null` to the string `"null"`. -/
def regionValue (req : RequestModel) : String :=
  (hGet "cf-ipcountry" req.headers).getD "null"

/-- The access-control disjunction of lines 469-496, over the already
extracted matching values, with each `test` idealised as a pure matcher
(see the section comment; `accessDeniedS` models the stateful `test`). -/
def accessDeniedV (cfg : Env) (hostname pathname uaV ipV regionV : String) : Bool :=
  (hostname == "") ||
  (match cfg.pathnameRegex with | some m => !(m pathname) | none => false) ||
  (match cfg.uaWhitelist with | some m => !(m uaV) | none => false) ||
  (match cfg.uaBlacklist with | some m => m uaV | none => false) ||
  (match cfg.ipWhitelist with | some m => !(m ipV) | none => false) ||
  (match cfg.ipBlacklist with | some m => m ipV | none => false) ||
  (match cfg.regionWhitelist with | some m => !(m regionV) | none => false) ||
  (match cfg.regionBlacklist with | some m => m regionV | none => false)

/-- The access-control check of the fetch handler; `hostname` is the
routed `PROXY_HOSTNAME`. -/
def accessDenied (cfg : Env) (hostname : String) (req : RequestModel) : Bool :=
  accessDeniedV cfg hostname req.pathname (uaValue req) (ipValue req) (regionValue req)

/-! ## Stateful access control: cached global regexes

`RegExpBuiltinExec` semantics for the cached `'g'`-flag regexes of
`getCachedRegex`: `test` starts searching at the object's `lastIndex`
(failing outright when it exceeds the string length), sets `lastIndex` to
the match end on success and resets it to 0 on failure.  The compiled
pattern itself is pure; it is embedded as its search denotation
(first match at or after a given index).  The cache key is the pattern
source string (all access-control regexes share the flags `'g'`), so two
checks configured with the same pattern string share one `lastIndex`. -/

/-- The search denotation of a compiled pattern: first match in `value`
starting at or after the given index, as a `(start, end)` span. -/
abbrev RegexFn := String → Nat → Option (Nat × Nat)

/-- A configured pattern: its source string (the `regexCache` key) and
its compiled search denotation. -/
structure PatternS where
  key : String
  fn : RegexFn

/-- The `lastIndex` store of the cached global regexes, keyed by pattern
source string; an absent entry is a fresh regex (`lastIndex = 0`). -/
abbrev RegexState := List (String × Nat)

/-- Read a pattern's `lastIndex` (0 when fresh). -/
def liGet (k : String) : RegexState → Nat
  | [] => 0
  | (k', v) :: rest => if k' = k then v else liGet k rest

/-- Write a pattern's `lastIndex`. -/
def liSet (k : String) (v : Nat) : RegexState → RegexState
  | [] => [(k, v)]
  | (k', w) :: rest => if k' = k then (k, v) :: rest else (k', w) :: liSet k v rest

/-- JS `regex.test(value)` for a cached global regex: search from
`lastIndex`; a match returns `true` and sets `lastIndex` to the match
end; a miss (including `lastIndex` beyond the string) returns `false`
and resets `lastIndex` to 0. -/
def jsTestG (p : PatternS) (value : String) (st : RegexState) : Bool × RegexState :=
  let li := liGet p.key st
  if li > value.length then (false, liSet p.key 0 st)
  else
    match p.fn value li with
    | some (_, e) => (true, liSet p.key e st)
    | none => (false, liSet p.key 0 st)

/-- One clause of the denial disjunction:
`(PATTERN && !regex.test(v))` for an allow-list (`isAllow = true`),
`(PATTERN && regex.test(v))` for a deny-list; an absent pattern is falsy
and runs no test (no state change). -/
def clauseTest (p : Option PatternS) (isAllow : Bool) (v : String)
    (st : RegexState) : Bool × RegexState :=
  match p with
  | none => (false, st)
  | some pat =>
    let r := jsTestG pat v st
    (if isAllow then !r.1 else r.1, r.2)

/-- The configured access-control patterns, with cache keys, for the
stateful model. -/
structure EnvS where
  pathnameRegex : Option PatternS := none
  uaWhitelist : Option PatternS := none
  uaBlacklist : Option PatternS := none
  ipWhitelist : Option PatternS := none
  ipBlacklist : Option PatternS := none
  regionWhitelist : Option PatternS := none
  regionBlacklist : Option PatternS := none

/-- The access-control disjunction of lines 469-496 with the stateful
`test`: clauses are evaluated in source order, `||` short-circuits (later
tests do not run once a clause is true), and the updated `lastIndex`
store is returned alongside the decision. -/
def accessDeniedS (cfg : EnvS) (hostname pathname uaV ipV regionV : String)
    (st : RegexState) : Bool × RegexState :=
  if hostname == "" then (true, st) else
  let r1 := clauseTest cfg.pathnameRegex true pathname st
  if r1.1 then (true, r1.2) else
  let r2 := clauseTest cfg.uaWhitelist true uaV r1.2
  if r2.1 then (true, r2.2) else
  let r3 := clauseTest cfg.uaBlacklist false uaV r2.2
  if r3.1 then (true, r3.2) else
  let r4 := clauseTest cfg.ipWhitelist true ipV r3.2
  if r4.1 then (true, r4.2) else
  let r5 := clauseTest cfg.ipBlacklist false ipV r4.2
  if r5.1 then (true, r5.2) else
  let r6 := clauseTest cfg.regionWhitelist true regionV r5.2
  if r6.1 then (true, r6.2) else
  clauseTest cfg.regionBlacklist false regionV r6.2

/-- The stateful access check over an inbound request, with the same
value accessors (and JS coercions) as `accessDenied`. -/
def accessDeniedSReq (cfg : EnvS) (hostname : String) (req : RequestModel)
    (st : RegexState) : Bool × RegexState :=
  accessDeniedS cfg hostname req.pathname (uaValue req) (ipValue req)
    (regionValue req) st

/-- Search denotation of a literal-text pattern (a regex source with no
metacharacters, e.g. `docker`): the first occurrence of the literal at or
after the start index. -/
def findLitAux (lit : List Char) : List Char → Nat → Option Nat
  | [], i => if lit.isEmpty then some i else none
  | c :: rest, i =>
    if lit.isPrefixOf (c :: rest) then some i else findLitAux lit rest (i + 1)

/-- `litSearch lit` is the `RegexFn` of the literal pattern `lit`. -/
def litSearch (lit : String) : RegexFn :=
  fun value start =>
    if start > value.length then none
    else (findLitAux lit.data (value.data.drop start) start).map
      (fun s => (s, s + lit.length))

/-! ## Response body processing (src/index.js lines 121-146) -/

/-- The early-return condition of `processResponseBody` (lines 125-130):
the body passes through untouched for octet-stream, any
`application/vnd.docker.*` or `application/vnd.oci.*` media type, and for
every content type that does not contain `text/`. -/
def shouldSkipBodyRewrite (contentType : String) : Bool :=
  containsStr "application/octet-stream" contentType ||
  containsStr "application/vnd.docker." contentType ||
  containsStr "application/vnd.oci." contentType ||
  !(containsStr "text/" contentType)

/-- `processResponseBody` (lines 121-146), body part, for the
`PATHNAME_REGEX`-absent pattern (the alternative only extends the regex
with a path tail; the selection condition is identical).  Status and
headers are preserved by the source, so only the body is computed. -/
def processResponseBody (proxyHostname originHostname contentType body : String) : String :=
  if shouldSkipBodyRewrite contentType then body
  else hostRewrite proxyHostname originHostname body

/-- Modelled from the spec: the fixed set of rewritable textual/manifest
media types of §4.6 (JSON plus the Docker/OCI manifest and index types),
for comparison with the source's `shouldSkipBodyRewrite`. -/
def specRewritableTypes : List String :=
  ["application/json",
   "application/vnd.docker.distribution.manifest.v1+json",
   "application/vnd.docker.distribution.manifest.v2+json",
   "application/vnd.docker.distribution.manifest.list.v2+json",
   "application/vnd.oci.image.manifest.v1+json",
   "application/vnd.oci.image.index.v1+json"]

/-- Modelled from the spec: body rewrite applies exactly to the media
types of `specRewritableTypes`. -/
def specRewritable (contentType : String) : Bool :=
  specRewritableTypes.contains contentType

/-! ## Error responses (src/index.js lines 587-606) -/

/-- A JS error value as observed by the catch-all handler: `statusCode`
and `errorType` are `undefined` (`none`) on non-`ProxyError` exceptions. -/
structure JsError where
  message : String
  statusCode : Option Nat := none
  errorType : Option String := none

/-- JS `x || default` for an optional number (`undefined` and `0` are falsy). -/
def jsOrNat (o : Option Nat) (d : Nat) : Nat :=
  match o with
  | some n => if n = 0 then d else n
  | none => d

/-- JS `x || default` for an optional string (`undefined` and `""` are falsy). -/
def jsOrStr (o : Option String) (d : String) : String :=
  match o with
  | some s => if s = "" then d else s
  | none => d

/-- One hex digit, for JSON control-character escapes. -/
def hexDigit (n : Nat) : Char :=
  if n < 10 then Char.ofNat (48 + n) else Char.ofNat (87 + n)

/-- `JSON.stringify` escaping of one character. -/
def jsonEscapeChar (c : Char) : String :=
  if c = '"' then "\\\""
  else if c = '\\' then "\\\\"
  else if c = '\n' then "\\n"
  else if c = '\r' then "\\r"
  else if c = '\t' then "\\t"
  else if c = Char.ofNat 8 then "\\b"
  else if c = Char.ofNat 12 then "\\f"
  else if c.toNat < 32 then
    "\\u00" ++ String.mk [hexDigit (c.toNat / 16), hexDigit (c.toNat % 16)]
  else String.singleton c

/-- `JSON.stringify` escaping of a string body. -/
def jsonEscape (s : String) : String :=
  s.data.foldr (fun c acc => jsonEscapeChar c ++ acc) ""

/-- A `JSON.stringify`-quoted string. -/
def jsonQuote (s : String) : String :=
  "\"" ++ jsonEscape s ++ "\""

/-- The catch-all response body
`JSON.stringify({error: error.message, type: error.errorType || 'UNKNOWN_ERROR', requestId})`
(lines 592-597). -/
def errorBodyJson (e : JsError) (rid : String) : String :=
  "\x7b\"error\":" ++ jsonQuote e.message ++
  ",\"type\":" ++ jsonQuote (jsOrStr e.errorType "UNKNOWN_ERROR") ++
  ",\"requestId\":" ++ jsonQuote rid ++ "\x7d"

/-- The response surface observed by the claims: status, `Content-Type`,
body, the `Location` of a redirect, and the `X-Request-ID` header. -/
structure ResponseModel where
  status : Nat
  contentType : String
  body : String
  redirect : Option String := none
  xRequestId : Option String := none
deriving DecidableEq

/-- The catch-all error response of the fetch handler (lines 592-605). -/
def buildErrorResponse (e : JsError) (rid : String) : ResponseModel :=
  { status := jsOrNat e.statusCode 500,
    contentType := "application/json",
    body := errorBodyJson e rid,
    redirect := none,
    xRequestId := some rid }

/-! ## The access-denied response (src/index.js lines 497-507) -/

/-- The nginx welcome page returned on denial (lines 402-426). -/
def nginxHtml : String :=
  "<!DOCTYPE html>\n<html>\n<head>\n<title>Welcome to nginx!</title>\n<style>\nhtml \x7b color-scheme: light dark; \x7d\nbody \x7b width: 35em; margin: 0 auto;\nfont-family: Tahoma, Verdana, Arial, sans-serif; \x7d\n</style>\n</head>\n<body>\n<h1>Welcome to nginx!</h1>\n<p>If you see this page, the nginx web server is successfully installed and\nworking. Further configuration is required.</p>\n\n<p>For online documentation and support please refer to\n<a href=\"http://nginx.org/\">nginx.org</a>.<br/>\nCommercial support is available at\n<a href=\"http://nginx.com/\">nginx.com</a>.</p>\n\n<p><em>Thank you for using nginx.</em></p>\n</body>\n</html>"

/-- The denial branch (lines 500-506): `URL302` truthy gives
`Response.redirect(URL302, 302)`; otherwise `new Response(await nginx(),
{headers: {"Content-Type": "text/html; charset=utf-8"}})`, whose status is
the `Response` default `200`. -/
def denyResponse (url302 : Option String) : ResponseModel :=
  if (url302.getD "") ≠ "" then
    { status := 302, contentType := "", body := "", redirect := url302 }
  else
    { status := 200, contentType := "text/html; charset=utf-8", body := nginxHtml }

/-! ## `fetchWithTimeout` (src/index.js lines 219-275)

The network is an oracle assigning each attempt index an outcome.  An
`AbortError` (timeout) is rethrown immediately as a 504 `REQUEST_TIMEOUT`
`ProxyError`; a transport error at the last attempt is rethrown as-is; a
`401` response returns immediately; any other non-2xx response retries
while attempts remain. -/

/-- What a single `fetch` attempt does. -/
inductive AttemptOutcome where
  | resp (status : Nat)
  | abortTimeout
  | transportError (msg : String)
deriving DecidableEq

/-- How `fetchWithTimeout` terminates. -/
inductive FwtResult where
  | response (status : Nat)
  | timeoutError
  | transportFailure (msg : String)
  | exhausted (last : Option String)
deriving DecidableEq

/-- JS `response.ok`. -/
def statusOk (s : Nat) : Bool :=
  200 ≤ s && s < 300

/-- The retry loop of `fetchWithTimeout` (lines 222-272); `remaining + 1`
is the number of iterations the loop may still run, `i` the current
attempt index and `last` the JS `lastError`.  Returns the result together
with the number of attempts performed. -/
def fwtGo (oc : Nat → AttemptOutcome) : Nat → Nat → Option String → FwtResult × Nat
  | 0, _, last => (FwtResult.exhausted last, 0)
  | remaining + 1, i, last =>
    match oc i with
    | AttemptOutcome.resp s =>
      if s = 401 then (FwtResult.response 401, 1)
      else if !(statusOk s) && remaining > 0 then
        ((fwtGo oc remaining (i + 1) last).1, (fwtGo oc remaining (i + 1) last).2 + 1)
      else (FwtResult.response s, 1)
    | AttemptOutcome.abortTimeout => (FwtResult.timeoutError, 1)
    | AttemptOutcome.transportError m =>
      if remaining = 0 then (FwtResult.transportFailure m, 1)
      else ((fwtGo oc remaining (i + 1) (some m)).1, (fwtGo oc remaining (i + 1) (some m)).2 + 1)

/-- `fetchWithTimeout(request, pathname, timeout, retries)` over the
attempt oracle, with the number of attempts performed. -/
def fetchWithTimeoutM (oc : Nat → AttemptOutcome) (retries : Nat) : FwtResult × Nat :=
  fwtGo oc retries 0 none

/-! ## The fetch handler (src/index.js lines 431-607)

The orchestrator for a validated configuration: route, access check (deny
short-circuits to `denyResponse`), build the outbound request, consult the
upstream oracle (which absorbs `fetchWithTimeout`), then either return the
401 challenge, or the processed response; `fetchWithTimeout` failures
reach the catch-all and become `buildErrorResponse` responses. -/

/-- The upstream response surface the handler consumes. -/
structure UpstreamResponse where
  status : Nat
  contentType : String
  body : String
deriving DecidableEq

/-- Outcome of `fetchWithTimeout` as seen by the handler. -/
inductive UpstreamResult where
  | resp (r : UpstreamResponse)
  | timeout
  | transportError (msg : String)

/-- The `REQUEST_TIMEOUT` `ProxyError` message (line 258). -/
def timeoutMessage (t : Nat) : String :=
  "Request timeout after " ++ toString t ++ "ms"

/-- The fetch handler (lines 431-607) for a configuration that passed
`validateConfig`.  `upstream` is the network oracle receiving the routed
hostname and the outbound headers built by `createNewRequest`. -/
def handleFetch (cfg : Env) (req : RequestModel) (rid : String)
    (upstream : String × HList → UpstreamResult) : ResponseModel :=
  if accessDenied cfg (routeBackend cfg.proxyHostname req.pathname) req then
    denyResponse cfg.url302
  else
    match upstream (routeBackend cfg.proxyHostname req.pathname,
        createNewRequestHeaders req.headers req.pathname
          (routeBackend cfg.proxyHostname req.pathname) req.hostname) with
    | UpstreamResult.timeout =>
      buildErrorResponse
        { message := timeoutMessage cfg.requestTimeout,
          statusCode := some 504, errorType := some "REQUEST_TIMEOUT" } rid
    | UpstreamResult.transportError m =>
      buildErrorResponse { message := m } rid
    | UpstreamResult.resp r =>
      if r.status = 401 then
        { status := 401, contentType := r.contentType, body := r.body }
      else
        { status := r.status, contentType := r.contentType,
          body := processResponseBody (routeBackend cfg.proxyHostname req.pathname)
            req.hostname r.contentType r.body }

/-- A 400 upstream outcome, for provenance statements about the handler. -/
def respStatusIs (s : Nat) : UpstreamResult → Bool
  | UpstreamResult.resp r => r.status == s
  | _ => false

/-! ## Helper lemmas about the retry loop -/

/-! ## Helper lemmas about the header pipeline -/

/-! ## Concrete fixtures used by witnesses and counterexamples -/

/-- Blob request with a malformed (non-hex) `sha256:` digest. -/
def reqBadDigest : RequestModel :=
  { hostname := "proxy.example.com",
    pathname := "/v2/library/alpine/blobs/sha256:zzzz", headers := [] }

/-- Upstream returning a 200 octet-stream blob. -/
def upOk200 : String × HList → UpstreamResult :=
  fun _ => UpstreamResult.resp
    { status := 200, contentType := "application/octet-stream", body := "DATA" }

/-- Upstream returning its own 400. -/
def up400 : String × HList → UpstreamResult :=
  fun _ => UpstreamResult.resp
    { status := 400, contentType := "application/json", body := "bad request" }

/-- The regex `^10\.` of the denial scenario, as a matcher oracle. -/
def cfgIpBlock : Env :=
  { ipBlacklist := some (fun s => sStarts "10." s) }

/-- A request from blacklisted client IP `10.0.0.5`. -/
def reqFromBlockedIp : RequestModel :=
  { hostname := "proxy.example.com",
    pathname := "/v2/library/alpine/manifests/latest",
    headers := [("cf-connecting-ip", "10.0.0.5")] }

/-- Upstream returning a 200 text response. -/
def upTextOk : String × HList → UpstreamResult :=
  fun _ => UpstreamResult.resp
    { status := 200, contentType := "text/plain", body := "hello" }

/-- Upstream that always times out. -/
def upTimeoutFx : String × HList → UpstreamResult :=
  fun _ => UpstreamResult.timeout

/-- Attempt oracle: every attempt times out. -/
def ocAllTimeout : Nat → AttemptOutcome :=
  fun _ => AttemptOutcome.abortTimeout

/-- Attempt oracle: three distinct transport failures. -/
def ocThreeTransport : Nat → AttemptOutcome :=
  fun i => AttemptOutcome.transportError
    (if i = 0 then "e0" else if i = 1 then "e1" else "e2")

/-- `UA_WHITELIST_REGEX = UA_BLACKLIST_REGEX = "docker"`: both checks
retrieve the same cached global `RegExp` object. -/
def cfgSharedUa : EnvS :=
  { uaWhitelist := some ⟨"docker", litSearch "docker"⟩,
    uaBlacklist := some ⟨"docker", litSearch "docker"⟩ }

/-- A request whose (lowercased) user-agent is exactly `docker`. -/
def reqDockerUa : RequestModel :=
  { hostname := "proxy.example.com", pathname := "/v2/x",
    headers := [("user-agent", "Docker")] }

/-- The regex `^null$` as an IP blacklist matcher oracle. -/
def cfgNullBlacklist : Env :=
  { ipBlacklist := some (fun s => s == "null") }

/-- A request with no `cf-connecting-ip` header at all. -/
def reqNoIp : RequestModel :=
  { hostname := "proxy.example.com", pathname := "/v2/x", headers := [] }

/-- A request whose `cf-connecting-ip` header is the empty string. -/
def reqEmptyIp : RequestModel :=
  { hostname := "proxy.example.com", pathname := "/v2/x",
    headers := [("cf-connecting-ip", "")] }

/-- The timeout `ProxyError` as a catch-all input. -/
def errTimeoutFx : JsError :=
  { message := "Request timeout after 60000ms",
    statusCode := some 504, errorType := some "REQUEST_TIMEOUT" }

/-! ## Supporting lemmas -/

theorem scanRewriteAux_id_of_no_match (pat repl : List Char) :
    ∀ (n : Nat) (prev : Option Char) (s : List Char),
      hasMatchAux pat n prev s = false → scanRewriteAux pat repl n prev s = s := by
  intro n
  induction n with
  | zero => intro prev s _; rfl
  | succ n ih =>
    intro prev s h
    cases s with
    | nil => rfl
    | cons c rest =>
      have h2 : (matchHere pat prev (c :: rest) ||
          hasMatchAux pat n (some c) rest) = false := h
      rw [Bool.or_eq_false_iff] at h2
      simp only [scanRewriteAux, h2.1, Bool.false_eq_true, if_false]
      rw [ih (some c) rest h2.2]

theorem isPrefixOf_subset :
    ∀ (n h : List Char), n.isPrefixOf h = true → ∀ c ∈ n, c ∈ h := by
  intro n
  induction n with
  | nil => intro h _ c hc; cases hc
  | cons a as ih =>
    intro h hp c hc
    cases h with
    | nil => cases hp
    | cons b bs =>
      simp only [List.isPrefixOf, Bool.and_eq_true, beq_iff_eq] at hp
      cases hc with
      | head => simp [hp.1]
      | tail _ hmem => exact List.mem_cons_of_mem _ (ih bs hp.2 c hmem)

theorem containsSubL_subset :
    ∀ (h n : List Char), containsSubL n h = true → ∀ c ∈ n, c ∈ h := by
  intro h
  induction h with
  | nil =>
    intro n hn c hc
    simp only [containsSubL, List.isEmpty_iff] at hn
    subst hn; cases hc
  | cons b bs ih =>
    intro n hn c hc
    simp only [containsSubL, Bool.or_eq_true] at hn
    cases hn with
    | inl hp => exact isPrefixOf_subset n (b :: bs) hp c hc
    | inr hrest => exact List.mem_cons_of_mem _ (ih n hrest c hc)

theorem isPrefixOf_append_self :
    ∀ (n b : List Char), n.isPrefixOf (n ++ b) = true := by
  intro n
  induction n with
  | nil => intro b; cases b <;> rfl
  | cons a as ih => intro b; simp [List.isPrefixOf, ih b]

theorem containsSubL_of_isPrefixOf (n h : List Char)
    (hp : n.isPrefixOf h = true) : containsSubL n h = true := by
  cases h with
  | nil =>
    cases n with
    | nil => rfl
    | cons a as => cases hp
  | cons c rest => simp [containsSubL, hp]

theorem containsSubL_self_append (n b : List Char) :
    containsSubL n (n ++ b) = true :=
  containsSubL_of_isPrefixOf n (n ++ b) (isPrefixOf_append_self n b)

theorem containsSubL_append_right (n : List Char) :
    ∀ (s t : List Char), containsSubL n t = true → containsSubL n (s ++ t) = true := by
  intro s
  induction s with
  | nil => intro t ht; exact ht
  | cons c cs ih =>
    intro t ht
    simp only [List.cons_append, containsSubL, Bool.or_eq_true]
    exact Or.inr (ih t ht)

theorem sdata_append (a b : String) : (a ++ b).data = a.data ++ b.data := by
  cases a; cases b; rfl

theorem hGet_hSet_self (n v : String) (hs : HList) :
    hGet n (hSet n v hs) = some v := by
  induction hs with
  | nil => simp [hGet, hSet]
  | cons p rest ih =>
    obtain ⟨k, w⟩ := p
    by_cases h : k = n
    · simp [hGet, hSet, h]
    · simp [hGet, hSet, h, ih]

theorem hGet_hSet_ne (n m v : String) (hs : HList) (h : m ≠ n) :
    hGet n (hSet m v hs) = hGet n hs := by
  induction hs with
  | nil => simp [hGet, hSet, h]
  | cons p rest ih =>
    obtain ⟨k, w⟩ := p
    by_cases hk : k = m
    · subst hk
      simp [hGet, hSet, h]
    · by_cases hkn : k = n
      · simp [hGet, hSet, hk, hkn, Ne.symm h]
      · simp [hGet, hSet, hk, hkn, ih]

theorem hGet_map_val (g : String → String) (n : String) (hs : HList) :
    hGet n (hs.map (fun p => (p.1, g p.2))) = (hGet n hs).map g := by
  induction hs with
  | nil => simp [hGet]
  | cons p rest ih =>
    obtain ⟨k, w⟩ := p
    by_cases h : k = n
    · simp [hGet, h]
    · simp [hGet, h, ih]

theorem fwtGo_attempts_le (oc : Nat → AttemptOutcome) :
    ∀ (remaining i : Nat) (last : Option String),
      (fwtGo oc remaining i last).2 ≤ remaining := by
  intro remaining
  induction remaining with
  | zero => intro i last; simp [fwtGo]
  | succ n ih =>
    intro i last
    simp only [fwtGo]
    cases oc i with
    | resp s =>
      by_cases h401 : s = 401
      · simp [h401]
      · by_cases hretry : !(statusOk s) && n > 0
        · simp only [h401, if_false, hretry, if_true]
          exact Nat.succ_le_succ (ih (i + 1) last)
        · simp only [h401, if_false, hretry, Bool.false_eq_true]
          simp
    | abortTimeout => simp
    | transportError m =>
      by_cases hlast : n = 0
      · simp [hlast]
      · simp only [hlast, if_false]
        exact Nat.succ_le_succ (ih (i + 1) (some m))

theorem fwtGo_transport_step (oc : Nat → AttemptOutcome) (rem i : Nat)
    (last : Option String) (m : String) (h : oc i = AttemptOutcome.transportError m) :
    fwtGo oc (rem + 1) i last =
      (if rem = 0 then (FwtResult.transportFailure m, 1)
       else ((fwtGo oc rem (i + 1) (some m)).1, (fwtGo oc rem (i + 1) (some m)).2 + 1)) := by
  simp [fwtGo, h]

theorem fwtGo_timeout_step (oc : Nat → AttemptOutcome) (rem i : Nat)
    (last : Option String) (h : oc i = AttemptOutcome.abortTimeout) :
    fwtGo oc (rem + 1) i last = (FwtResult.timeoutError, 1) := by
  simp [fwtGo, h]

theorem hGet_step_rw (origin proxy n : String) (hs : HList) :
    hGet n (step_rw origin proxy hs) = (hGet n hs).map (rwVal origin proxy) :=
  hGet_map_val (rwVal origin proxy) n hs

theorem hGet_step_accept_ne (pathname n : String) (hs : HList)
    (h : n ≠ "accept") : hGet n (step_accept pathname hs) = hGet n hs := by
  unfold step_accept
  by_cases h1 : sStarts "/v2" pathname
  · by_cases h2 : containsStr "/manifests/" pathname
    · simp [h1, h2, hGet_hSet_ne n "accept" _ hs (Ne.symm h)]
    · by_cases h3 : containsStr "/blobs/" pathname
      · simp [h1, h2, h3, hGet_hSet_ne n "accept" _ hs (Ne.symm h)]
      · simp [h1, h2, h3]
  · simp [h1]

theorem hGet_step_range_ne (reqHeaders : HList) (n : String) (hs : HList)
    (h : n ≠ "range") : hGet n (step_range reqHeaders hs) = hGet n hs := by
  unfold step_range
  cases hGet "range" reqHeaders with
  | none => rfl
  | some v => exact hGet_hSet_ne n "range" v hs (Ne.symm h)

/-- Every character of `UNSIGNED-PAYLOAD` is an uppercase letter or `-`:
no lowercase letter or digit occurs in it. -/
theorem unsignedPayload_chars :
    ∀ c ∈ ("UNSIGNED-PAYLOAD" : String).data, (c.isLower || c.isDigit) = false := by
  decide

/-- A hostname containing at least one lowercase letter or digit (any real
hostname, since URL parsing lowercases hostnames) is not a substring of
`UNSIGNED-PAYLOAD`, so the header-value rewrite leaves that value alone. -/
theorem rwVal_unsignedPayload (origin proxy : String)
    (h : origin.data.any (fun c => c.isLower || c.isDigit) = true) :
    rwVal origin proxy "UNSIGNED-PAYLOAD" = "UNSIGNED-PAYLOAD" := by
  unfold rwVal
  have hc : containsStr origin "UNSIGNED-PAYLOAD" = false := by
    rcases List.any_eq_true.mp h with ⟨c, hmem, hprop⟩
    cases hcs : containsStr origin "UNSIGNED-PAYLOAD" with
    | false => rfl
    | true =>
      have hsub := containsSubL_subset ("UNSIGNED-PAYLOAD" : String).data origin.data hcs c hmem
      have := unsignedPayload_chars c hsub
      rw [this] at hprop
      cases hprop
  simp [hc]


/-! ## Claims -/

/-- C3 counterexample: with `MAX_RETRIES = 3` and an upstream whose every
attempt times out, `fetchWithTimeout` performs exactly one attempt — the
first `AbortError` is rethrown as `REQUEST_TIMEOUT` immediately
(src/index.js lines 255-262), so the claimed "exactly 3 attempts" is false
when failures are timeouts. -/
theorem timeout_single_attempt_cx :
    fetchWithTimeoutM ocAllTimeout 3 = (FwtResult.timeoutError, 1) ∧
    (fetchWithTimeoutM ocAllTimeout 3).2 ≠ 3 := by
  decide

/-- C3 (amended): with `MAX_RETRIES = 3`, a permanently failing upstream
produces exactly 3 attempts with the last transport error surfaced when
every failure is transport-level; a timeout ends the loop at once with
`REQUEST_TIMEOUT` (one attempt when the first attempt times out); and the
loop never performs more than 3 attempts. -/
theorem retry_policy_amended (oc : Nat → AttemptOutcome) (m0 m1 m2 : String) :
    (oc 0 = AttemptOutcome.transportError m0 →
     oc 1 = AttemptOutcome.transportError m1 →
     oc 2 = AttemptOutcome.transportError m2 →
      fetchWithTimeoutM oc 3 = (FwtResult.transportFailure m2, 3)) ∧
    (oc 0 = AttemptOutcome.abortTimeout →
      fetchWithTimeoutM oc 3 = (FwtResult.timeoutError, 1)) ∧
    (fetchWithTimeoutM oc 3).2 ≤ 3 := by
  refine ⟨?_, ?_, fwtGo_attempts_le oc 3 0 none⟩
  · intro h0 h1 h2
    have e2 : fwtGo oc 1 2 (some m1) = (FwtResult.transportFailure m2, 1) := by
      simpa using fwtGo_transport_step oc 0 2 (some m1) m2 h2
    have e1 : fwtGo oc 2 1 (some m0) = (FwtResult.transportFailure m2, 2) := by
      have := fwtGo_transport_step oc 1 1 (some m0) m1 h1
      simpa [e2] using this
    show fwtGo oc 3 0 none = _
    have := fwtGo_transport_step oc 2 0 none m0 h0
    simpa [e1] using this
  · intro h0
    show fwtGo oc 3 0 none = _
    simpa using fwtGo_timeout_step oc 2 0 none h0

/-- C3 witness: the amended theorem applied to the concrete failing
oracles. -/
theorem retry_policy_amended_witness :
    fetchWithTimeoutM ocThreeTransport 3 = (FwtResult.transportFailure "e2", 3) ∧
    fetchWithTimeoutM ocAllTimeout 3 = (FwtResult.timeoutError, 1) :=
  ⟨(retry_policy_amended ocThreeTransport "e0" "e1" "e2").1 (by decide) (by decide) (by decide),
   (retry_policy_amended ocAllTimeout "x" "x" "x").2.1 (by decide)⟩

/-- C5 counterexample: the spec routes `/v2/_catalog` to the index backend,
but `routeBackend` (src/index.js lines 459-466) has no catalog rule and
leaves it on the default backend. -/
theorem catalog_routing_cx :
    specRouteBackend "registry-1.docker.io" "/v2/_catalog" = "index.docker.io" ∧
    routeBackend "registry-1.docker.io" "/v2/_catalog" = "registry-1.docker.io" ∧
    ("registry-1.docker.io" : String) ≠ "index.docker.io" := by
  decide

/-- C5 (amended): a path containing `/token` goes to `auth.docker.io`;
otherwise a path containing `/search` goes to `index.docker.io`; otherwise
a `/v2` path containing `/manifests/` or `/blobs/` goes to
`registry-1.docker.io`; every other path goes to the configured default
backend.  `/auth` and `/v2/_catalog` are not specially routed. -/
theorem route_backend_rules (d p : String) :
    (containsStr "/token" p = true → routeBackend d p = "auth.docker.io") ∧
    (containsStr "/token" p = false → containsStr "/search" p = true →
      routeBackend d p = "index.docker.io") ∧
    (containsStr "/token" p = false → containsStr "/search" p = false →
      sStarts "/v2" p = true → isManifestOrBlobRequest p = true →
      routeBackend d p = "registry-1.docker.io") ∧
    (containsStr "/token" p = false → containsStr "/search" p = false →
      (sStarts "/v2" p && isManifestOrBlobRequest p) = false →
      routeBackend d p = d) := by
  refine ⟨?_, ?_, ?_, ?_⟩ <;> intros <;> simp_all [routeBackend]

/-- C5 witness: the four routing rules at concrete paths. -/
theorem route_backend_rules_witness :
    routeBackend "d.example" "/v2/x/token" = "auth.docker.io" ∧
    routeBackend "d.example" "/v1/search" = "index.docker.io" ∧
    routeBackend "d.example" "/v2/lib/alpine/blobs/sha256:aa" = "registry-1.docker.io" ∧
    routeBackend "d.example" "/foo" = "d.example" :=
  ⟨(route_backend_rules "d.example" "/v2/x/token").1 (by decide),
   (route_backend_rules "d.example" "/v1/search").2.1 (by decide) (by decide),
   (route_backend_rules "d.example" "/v2/lib/alpine/blobs/sha256:aa").2.2.1
     (by decide) (by decide) (by decide) (by decide),
   (route_backend_rules "d.example" "/foo").2.2.2 (by decide) (by decide) (by decide)⟩

/-- C6 counterexample: the spec's rewritable set contains
`application/json`, but `processResponseBody` (src/index.js lines 125-130)
passes JSON through unmodified — only `text/*` types are rewritten —
although a rewrite would have changed this body. -/
theorem json_not_rewritten_cx :
    specRewritable "application/json" = true ∧
    processResponseBody "registry-1.docker.io" "proxy.example.com"
      "application/json" "registry-1.docker.io" = "registry-1.docker.io" ∧
    hostRewrite "registry-1.docker.io" "proxy.example.com"
      "registry-1.docker.io" = "proxy.example.com" ∧
    ("registry-1.docker.io" : String) ≠ "proxy.example.com" := by
  decide

/-- C6 (amended): the body rewrite applies exactly when the content type
contains `text/` and contains none of `application/octet-stream`,
`application/vnd.docker.`, `application/vnd.oci.`; in particular binary
types, and also JSON and the Docker/OCI manifest types, pass through
unmodified. -/
theorem body_rewrite_condition (ph oh ct body : String) :
    (shouldSkipBodyRewrite ct = true →
      processResponseBody ph oh ct body = body) ∧
    (shouldSkipBodyRewrite ct = false →
      processResponseBody ph oh ct body = hostRewrite ph oh body) ∧
    (containsStr "application/octet-stream" ct = true →
      processResponseBody ph oh ct body = body) ∧
    (containsStr "application/vnd.docker." ct = true →
      processResponseBody ph oh ct body = body) ∧
    (containsStr "application/vnd.oci." ct = true →
      processResponseBody ph oh ct body = body) ∧
    (containsStr "text/" ct = false →
      processResponseBody ph oh ct body = body) := by
  refine ⟨?_, ?_, ?_, ?_, ?_, ?_⟩ <;> intro h <;>
    simp_all [processResponseBody, shouldSkipBodyRewrite]

/-- C6 witness: octet-stream blobs pass through; `text/plain` is
rewritten. -/
theorem body_rewrite_condition_witness :
    processResponseBody "registry-1.docker.io" "proxy.example.com"
      "application/octet-stream" "registry-1.docker.io" = "registry-1.docker.io" ∧
    processResponseBody "registry-1.docker.io" "proxy.example.com"
      "text/plain" "registry-1.docker.io" =
      hostRewrite "registry-1.docker.io" "proxy.example.com" "registry-1.docker.io" :=
  ⟨(body_rewrite_condition "registry-1.docker.io" "proxy.example.com"
      "application/octet-stream" "registry-1.docker.io").2.2.1 (by decide),
   (body_rewrite_condition "registry-1.docker.io" "proxy.example.com"
      "text/plain" "registry-1.docker.io").2.1 (by decide)⟩

/-- C8 counterexample: the whole-word substitution is not idempotent when
the replacement reintroduces the pattern: with hostname `ab`, replacement
`ab.c` and body `ab` (which contains `ab` as a whole word), one rewrite
gives `ab.c` but a second rewrite gives `ab.c.c`. -/
theorem rewrite_not_idempotent_cx :
    hostRewrite "ab" "ab.c" "ab" = "ab.c" ∧
    hostRewrite "ab" "ab.c" (hostRewrite "ab" "ab.c" "ab") = "ab.c.c" ∧
    hostRewrite "ab" "ab.c" (hostRewrite "ab" "ab.c" "ab") ≠
      hostRewrite "ab" "ab.c" "ab" := by
  decide

/-- C8 (amended): the substitution is idempotent whenever the rewritten
text contains no further whole-word, non-dot-preceded match of the
hostname pattern — in particular whenever the replacement hostname does
not reintroduce the pattern; without that proviso a second application can
differ from the first. -/
theorem hostRewrite_idem (h r s : String)
    (hm : hasHostMatch h (hostRewrite h r s) = false) :
    hostRewrite h r (hostRewrite h r s) = hostRewrite h r s := by
  apply String.ext
  exact scanRewriteAux_id_of_no_match h.data r.data
    (hostRewrite h r s).data.length none (hostRewrite h r s).data hm

/-- C8 witness: idempotence at a concrete rewrite whose output is
match-free. -/
theorem hostRewrite_idem_witness :
    hasHostMatch "registry-1.docker.io"
      (hostRewrite "registry-1.docker.io" "proxy.example.com"
        "see registry-1.docker.io/v2") = false ∧
    hostRewrite "registry-1.docker.io" "proxy.example.com"
      (hostRewrite "registry-1.docker.io" "proxy.example.com"
        "see registry-1.docker.io/v2") =
    hostRewrite "registry-1.docker.io" "proxy.example.com"
      "see registry-1.docker.io/v2" :=
  ⟨by decide,
   hostRewrite_idem "registry-1.docker.io" "proxy.example.com"
     "see registry-1.docker.io/v2" (by decide)⟩

/-- C4 counterexample: whitelist and blacklist both configured as the
pattern `docker` and a user-agent (`Docker`, lowercased to `docker`) that
matches the pattern — yet on fresh regex state the decision is allow:
`getCachedRegex` hands both checks the same cached global `RegExp`, the
whitelist `test` matches and advances `lastIndex` to 6, and the blacklist
`test` on the same object then searches from index 6 and misses.  The
first conjunct shows the value does match the shared pattern (from
position 0). -/
theorem shared_pattern_allows_cx :
    litSearch "docker" "docker" 0 = some (0, 6) ∧
    (accessDeniedSReq cfgSharedUa "registry-1.docker.io" reqDockerUa []).1 = false := by
  decide

/-- C4 (amended): evaluated on fresh regex state, for each of the
user-agent, IP and region categories with only that category's lists
configured: when the whitelist and blacklist are distinct pattern
strings and the blacklist's pattern matches the value, the decision is
deny (whatever the whitelist does); but when they are the same pattern
string, the two checks share one cached global `RegExp`, and if the
whitelist `test` consumes the value's only match (no further match after
its end), the request is allowed despite matching both lists. -/
theorem both_patterns_stateful (hostname pathname uaV ipV regionV : String)
    (kw kb : String) (fw fb : RegexFn) (s e : Nat) :
    (kw ≠ kb → fb uaV 0 = some (s, e) →
      (accessDeniedS { uaWhitelist := some ⟨kw, fw⟩, uaBlacklist := some ⟨kb, fb⟩ }
        hostname pathname uaV ipV regionV []).1 = true) ∧
    (kw ≠ kb → fb ipV 0 = some (s, e) →
      (accessDeniedS { ipWhitelist := some ⟨kw, fw⟩, ipBlacklist := some ⟨kb, fb⟩ }
        hostname pathname uaV ipV regionV []).1 = true) ∧
    (kw ≠ kb → fb regionV 0 = some (s, e) →
      (accessDeniedS { regionWhitelist := some ⟨kw, fw⟩, regionBlacklist := some ⟨kb, fb⟩ }
        hostname pathname uaV ipV regionV []).1 = true) ∧
    (∀ k f, f uaV 0 = some (s, e) → f uaV e = none → e ≤ uaV.length →
      (hostname == "") = false →
      (accessDeniedS { uaWhitelist := some ⟨k, f⟩, uaBlacklist := some ⟨k, f⟩ }
        hostname pathname uaV ipV regionV []).1 = false) := by
  refine ⟨?_, ?_, ?_, ?_⟩
  · intro hk hm
    by_cases hh : hostname == ""
    · simp [accessDeniedS, hh]
    · cases hfw : fw uaV 0 with
      | none => simp [accessDeniedS, clauseTest, jsTestG, liGet, hh, hfw]
      | some pr =>
        simp [accessDeniedS, clauseTest, jsTestG, liGet, liSet, hh, hfw, hm, hk]
  · intro hk hm
    by_cases hh : hostname == ""
    · simp [accessDeniedS, hh]
    · cases hfw : fw ipV 0 with
      | none => simp [accessDeniedS, clauseTest, jsTestG, liGet, hh, hfw]
      | some pr =>
        simp [accessDeniedS, clauseTest, jsTestG, liGet, liSet, hh, hfw, hm, hk]
  · intro hk hm
    by_cases hh : hostname == ""
    · simp [accessDeniedS, hh]
    · cases hfw : fw regionV 0 with
      | none => simp [accessDeniedS, clauseTest, jsTestG, liGet, hh, hfw]
      | some pr =>
        simp [accessDeniedS, clauseTest, jsTestG, liGet, liSet, hh, hfw, hm, hk]
  · intro k f hm1 hm2 hle hh
    have hle' : ¬ (uaV.length < e) := by omega
    simp [accessDeniedS, clauseTest, jsTestG, liGet, liSet, hh, hm1, hm2, hle']

/-- C4 witness: distinct patterns `docker` (whitelist) and `/24`
(blacklist) on user-agent `docker/24` deny; the shared pattern `docker`
on user-agent `docker` allows. -/
theorem both_patterns_stateful_witness :
    (accessDeniedS
      { uaWhitelist := some ⟨"docker", litSearch "docker"⟩,
        uaBlacklist := some ⟨"/24", litSearch "/24"⟩ }
      "registry-1.docker.io" "/v2/x" "docker/24" "null" "null" []).1 = true ∧
    (accessDeniedS
      { uaWhitelist := some ⟨"docker", litSearch "docker"⟩,
        uaBlacklist := some ⟨"docker", litSearch "docker"⟩ }
      "registry-1.docker.io" "/v2/x" "docker" "null" "null" []).1 = false :=
  ⟨(both_patterns_stateful "registry-1.docker.io" "/v2/x" "docker/24" "null" "null"
      "docker" "/24" (litSearch "docker") (litSearch "/24") 6 9).1
      (by decide) (by decide),
   (both_patterns_stateful "registry-1.docker.io" "/v2/x" "docker" "null" "null"
      "kw" "kb" (litSearch "kw") (litSearch "kb") 0 6).2.2.2
      "docker" (litSearch "docker") (by decide) (by decide) (by decide) (by decide)⟩

/-- C7 counterexample: the spec claims a missing IP/region/user-agent is
matched as the empty string, but lines 480-495 pass the raw
`headers.get(...)` to `RegExp.test`, which coerces `null` to the string
`"null"`: with blacklist `^null$` a request with no `cf-connecting-ip`
header is denied, while one whose header is the empty string is allowed. -/
theorem missing_ip_null_cx :
    accessDenied cfgNullBlacklist "registry-1.docker.io" reqNoIp = true ∧
    accessDenied cfgNullBlacklist "registry-1.docker.io" reqEmptyIp = false := by
  decide

/-- C7 (amended): evaluation is total (never throws); a missing user-agent
is matched as the empty string, but a missing client IP or region is
matched as the four-character string `"null"` (the JS `null`-to-string
coercion), so a configured allow-list fails on a missing value unless it
matches `"null"`. -/
theorem missing_value_coercion (cfg : Env) (hostname : String) (req : RequestModel) :
    (hGet "user-agent" req.headers = none →
      accessDenied cfg hostname req =
      accessDenied cfg hostname
        { req with headers := hSet "user-agent" "" req.headers }) ∧
    (hGet "cf-connecting-ip" req.headers = none →
      accessDenied cfg hostname req =
      accessDenied cfg hostname
        { req with headers := hSet "cf-connecting-ip" "null" req.headers }) ∧
    (hGet "cf-ipcountry" req.headers = none →
      accessDenied cfg hostname req =
      accessDenied cfg hostname
        { req with headers := hSet "cf-ipcountry" "null" req.headers }) := by
  refine ⟨?_, ?_, ?_⟩ <;> intro h
  · have h1 : uaValue { req with headers := hSet "user-agent" "" req.headers } =
        uaValue req := by
      simp [uaValue, hGet_hSet_self, h, asciiLower]
    have h2 : ipValue { req with headers := hSet "user-agent" "" req.headers } =
        ipValue req := by
      simp [ipValue,
        hGet_hSet_ne "cf-connecting-ip" "user-agent" "" req.headers (by decide)]
    have h3 : regionValue { req with headers := hSet "user-agent" "" req.headers } =
        regionValue req := by
      simp [regionValue,
        hGet_hSet_ne "cf-ipcountry" "user-agent" "" req.headers (by decide)]
    unfold accessDenied
    rw [h1, h2, h3]
  · have h1 : uaValue { req with headers := hSet "cf-connecting-ip" "null" req.headers } =
        uaValue req := by
      simp [uaValue,
        hGet_hSet_ne "user-agent" "cf-connecting-ip" "null" req.headers (by decide)]
    have h2 : ipValue { req with headers := hSet "cf-connecting-ip" "null" req.headers } =
        ipValue req := by
      simp [ipValue, hGet_hSet_self, h]
    have h3 : regionValue { req with headers := hSet "cf-connecting-ip" "null" req.headers } =
        regionValue req := by
      simp [regionValue,
        hGet_hSet_ne "cf-ipcountry" "cf-connecting-ip" "null" req.headers (by decide)]
    unfold accessDenied
    rw [h1, h2, h3]
  · have h1 : uaValue { req with headers := hSet "cf-ipcountry" "null" req.headers } =
        uaValue req := by
      simp [uaValue,
        hGet_hSet_ne "user-agent" "cf-ipcountry" "null" req.headers (by decide)]
    have h2 : ipValue { req with headers := hSet "cf-ipcountry" "null" req.headers } =
        ipValue req := by
      simp [ipValue,
        hGet_hSet_ne "cf-connecting-ip" "cf-ipcountry" "null" req.headers (by decide)]
    have h3 : regionValue { req with headers := hSet "cf-ipcountry" "null" req.headers } =
        regionValue req := by
      simp [regionValue, hGet_hSet_self, h]
    unfold accessDenied
    rw [h1, h2, h3]

/-- C7 witness: a missing client IP is matched exactly as the explicit
string `"null"`. -/
theorem missing_value_coercion_witness :
    accessDenied cfgNullBlacklist "registry-1.docker.io" reqNoIp =
    accessDenied cfgNullBlacklist "registry-1.docker.io"
      { reqNoIp with headers := hSet "cf-connecting-ip" "null" reqNoIp.headers } :=
  (missing_value_coercion cfgNullBlacklist "registry-1.docker.io" reqNoIp).2.1 rfl

/-- C9: for every inbound request whose path contains `/blobs/`, the
outbound headers built by `createNewRequest` carry
`x-amz-content-sha256: UNSIGNED-PAYLOAD` (src/index.js lines 282-285);
the later pipeline steps never overwrite it.  The origin hostname is
assumed to contain a lowercase letter or digit, which every URL hostname
does (URL parsing lowercases hostnames), so the header-value rewrite of
lines 288-298 cannot touch the all-uppercase value. -/
theorem blob_header_unsigned_payload (reqHeaders : HList)
    (pathname proxy origin : String)
    (hb : containsStr "/blobs/" pathname = true)
    (ho : origin.data.any (fun c => c.isLower || c.isDigit) = true) :
    hGet "x-amz-content-sha256"
      (createNewRequestHeaders reqHeaders pathname proxy origin) =
      some "UNSIGNED-PAYLOAD" := by
  unfold createNewRequestHeaders
  rw [hGet_step_range_ne reqHeaders _ _ (by decide)]
  rw [hGet_step_accept_ne pathname _ _ (by decide)]
  rw [hGet_hSet_ne _ "docker-distribution-api-version" _ _ (by decide)]
  rw [hGet_step_rw]
  unfold step_amz
  rw [if_pos hb, hGet_hSet_self]
  simp [rwVal_unsignedPayload origin proxy ho]

/-- C9 witness: a concrete blob request gets the unsigned-payload header. -/
theorem blob_header_unsigned_payload_witness :
    hGet "x-amz-content-sha256"
      (createNewRequestHeaders
        [("user-agent", "docker/24.0"), ("range", "bytes=0-99")]
        "/v2/library/alpine/blobs/sha256:zzzz"
        "registry-1.docker.io" "proxy.example.com") =
      some "UNSIGNED-PAYLOAD" :=
  blob_header_unsigned_payload
    [("user-agent", "docker/24.0"), ("range", "bytes=0-99")]
    "/v2/library/alpine/blobs/sha256:zzzz"
    "registry-1.docker.io" "proxy.example.com" (by decide) (by decide)

/-- C10: the catch-all response (src/index.js lines 592-605) has the
error's `statusCode` as status (500 when absent; the JS `||` would also
map an impossible `statusCode` of 0 to 500, hence the hypothesis),
`Content-Type: application/json`, the generated request id in
`X-Request-ID`, and a JSON body containing the quoted error message, the
quoted error type (defaulting to `UNKNOWN_ERROR`) and the quoted request
id. -/
theorem error_response_well_formed (e : JsError) (rid : String)
    (h0 : e.statusCode ≠ some 0) :
    ((∀ n, e.statusCode = some n → (buildErrorResponse e rid).status = n) ∧
     (e.statusCode = none → (buildErrorResponse e rid).status = 500)) ∧
    (buildErrorResponse e rid).contentType = "application/json" ∧
    (buildErrorResponse e rid).xRequestId = some rid ∧
    containsStr (jsonQuote e.message) (buildErrorResponse e rid).body = true ∧
    containsStr (jsonQuote (jsOrStr e.errorType "UNKNOWN_ERROR"))
      (buildErrorResponse e rid).body = true ∧
    containsStr (jsonQuote rid) (buildErrorResponse e rid).body = true := by
  have hb : (buildErrorResponse e rid).body.data =
      ("\x7b\"error\":" : String).data ++
      ((jsonQuote e.message).data ++
      ((",\"type\":" : String).data ++
      ((jsonQuote (jsOrStr e.errorType "UNKNOWN_ERROR")).data ++
      ((",\"requestId\":" : String).data ++
      ((jsonQuote rid).data ++ ("\x7d" : String).data))))) := by
    simp [buildErrorResponse, errorBodyJson, sdata_append, List.append_assoc]
  refine ⟨⟨?_, ?_⟩, rfl, rfl, ?_, ?_, ?_⟩
  · intro n hn
    have hne : n ≠ 0 := by
      intro hz
      exact h0 (by rw [hn, hz])
    simp [buildErrorResponse, jsOrNat, hn, hne]
  · intro hn
    simp [buildErrorResponse, jsOrNat, hn]
  · show containsSubL (jsonQuote e.message).data (buildErrorResponse e rid).body.data = true
    rw [hb]
    exact containsSubL_append_right _ _ _ (containsSubL_self_append _ _)
  · show containsSubL (jsonQuote (jsOrStr e.errorType "UNKNOWN_ERROR")).data
      (buildErrorResponse e rid).body.data = true
    rw [hb]
    exact containsSubL_append_right _ _ _
      (containsSubL_append_right _ _ _
        (containsSubL_append_right _ _ _ (containsSubL_self_append _ _)))
  · show containsSubL (jsonQuote rid).data (buildErrorResponse e rid).body.data = true
    rw [hb]
    exact containsSubL_append_right _ _ _
      (containsSubL_append_right _ _ _
        (containsSubL_append_right _ _ _
          (containsSubL_append_right _ _ _
            (containsSubL_append_right _ _ _ (containsSubL_self_append _ _)))))

/-- C10 witness: the timeout `ProxyError` mapped by the catch-all. -/
theorem error_response_well_formed_witness :
    (buildErrorResponse errTimeoutFx "r-w").status = 504 ∧
    (buildErrorResponse errTimeoutFx "r-w").contentType = "application/json" ∧
    (buildErrorResponse errTimeoutFx "r-w").xRequestId = some "r-w" ∧
    containsStr (jsonQuote "Request timeout after 60000ms")
      (buildErrorResponse errTimeoutFx "r-w").body = true :=
  have h := error_response_well_formed errTimeoutFx "r-w" (by simp [errTimeoutFx])
  ⟨h.1.1 504 rfl, h.2.1, h.2.2.1, h.2.2.2.1⟩

/-- C1 counterexample: a blob request whose `sha256:` digest is not 64
lowercase hex characters (`sha256:zzzz`) is not rejected — the handler
forwards it and returns the upstream's 200, because `src/index.js`
performs no digest validation anywhere (`createNewRequest`, lines 278-342,
only adds headers). -/
theorem malformed_digest_forwarded_cx :
    (handleFetch {} reqBadDigest "rid-c1" upOk200).status = 200 ∧
    (handleFetch {} reqBadDigest "rid-c1" upOk200).status ≠ 400 := by
  decide

/-- C1 (amended): the handler never produces a 400 of its own — no digest
validation exists, so a 400 response can only be the upstream's own status
passed through; malformed blob digests are forwarded (with the
`UNSIGNED-PAYLOAD` header) rather than rejected with `INVALID_SHA256`. -/
theorem status400_only_from_upstream (cfg : Env) (req : RequestModel)
    (rid : String) (up : String × HList → UpstreamResult)
    (h : (handleFetch cfg req rid up).status = 400) :
    respStatusIs 400 (up (routeBackend cfg.proxyHostname req.pathname,
      createNewRequestHeaders req.headers req.pathname
        (routeBackend cfg.proxyHostname req.pathname) req.hostname)) = true := by
  unfold handleFetch at h
  split at h
  · exfalso
    unfold denyResponse at h
    split at h <;> simp at h
  · rename_i hd
    split at h
    · rename_i hup
      rw [hup]
      simp only [buildErrorResponse, jsOrNat] at h
      simp at h
    · rename_i m hup
      rw [hup]
      simp only [buildErrorResponse, jsOrNat] at h
      simp at h
    · rename_i r hup
      rw [hup]
      split at h
      · simp at h
      · simp only [respStatusIs]
        simp at h
        simp [h]

/-- C1 witness: a 400 out of the handler is the upstream's own 400. -/
theorem status400_only_from_upstream_witness :
    (handleFetch {} reqBadDigest "w1" up400).status = 400 ∧
    respStatusIs 400 (up400 (routeBackend "registry-1.docker.io" reqBadDigest.pathname,
      createNewRequestHeaders reqBadDigest.headers reqBadDigest.pathname
        (routeBackend "registry-1.docker.io" reqBadDigest.pathname)
        reqBadDigest.hostname)) = true :=
  ⟨by decide, status400_only_from_upstream {} reqBadDigest "w1" up400 (by decide)⟩

/-- C2 counterexample: with `IP_BLACKLIST_REGEX = "^10\."`, client IP
`10.0.0.5` and no `URL302`, the denial response is the nginx welcome page
with the `Response` default status 200 (src/index.js lines 500-506) — not
the 403 the spec claims. -/
theorem deny_response_not_403_cx :
    (handleFetch cfgIpBlock reqFromBlockedIp "r0" upTextOk).status = 200 ∧
    (handleFetch cfgIpBlock reqFromBlockedIp "r0" upTextOk).status ≠ 403 := by
  decide

/-- C2 (amended): when the access check denies, the handler returns — with
the upstream oracle never consulted — a 302 redirect to `URL302` when that
is configured non-empty, and otherwise a 200 `text/html` response carrying
the nginx welcome page (the denial is logged as a 403 `ACCESS_DENIED`
error, but the returned status is the `Response` default 200). -/
theorem access_denied_short_circuit (cfg : Env) (req : RequestModel)
    (rid : String) (up1 up2 : String × HList → UpstreamResult)
    (hd : accessDenied cfg (routeBackend cfg.proxyHostname req.pathname) req = true) :
    handleFetch cfg req rid up1 = handleFetch cfg req rid up2 ∧
    handleFetch cfg req rid up1 = denyResponse cfg.url302 ∧
    (∀ u : String, cfg.url302 = some u → u ≠ "" →
      (handleFetch cfg req rid up1).status = 302 ∧
      (handleFetch cfg req rid up1).redirect = some u) ∧
    (cfg.url302.getD "" = "" →
      (handleFetch cfg req rid up1).status = 200 ∧
      (handleFetch cfg req rid up1).contentType = "text/html; charset=utf-8" ∧
      (handleFetch cfg req rid up1).body = nginxHtml) := by
  have e1 : handleFetch cfg req rid up1 = denyResponse cfg.url302 := by
    simp [handleFetch, hd]
  have e2 : handleFetch cfg req rid up2 = denyResponse cfg.url302 := by
    simp [handleFetch, hd]
  refine ⟨e1.trans e2.symm, e1, ?_, ?_⟩
  · intro u hu hne
    rw [e1, hu]
    simp [denyResponse, hne]
  · intro hu
    rw [e1]
    simp [denyResponse, hu]

/-- C2 witness: the blocked-IP scenario is independent of the upstream and
yields the 200 nginx page (no `URL302` configured). -/
theorem access_denied_short_circuit_witness :
    handleFetch cfgIpBlock reqFromBlockedIp "r1" upTextOk =
      handleFetch cfgIpBlock reqFromBlockedIp "r1" upTimeoutFx ∧
    (handleFetch cfgIpBlock reqFromBlockedIp "r1" upTextOk).status = 200 ∧
    (handleFetch cfgIpBlock reqFromBlockedIp "r1" upTextOk).body = nginxHtml :=
  have h := access_denied_short_circuit cfgIpBlock reqFromBlockedIp "r1"
    upTextOk upTimeoutFx (by decide)
  ⟨h.1, (h.2.2.2 (by decide)).1, (h.2.2.2 (by decide)).2.2⟩
